import Mathlib

/-!
Verification of the express-ts-boilerplate request pipeline.

Shallow embedding of:
- `src/config/index.ts` (environment schema, resolved configuration),
- `src/utils/logger.ts` (winston logger: level, format, transports),
- `src/app.ts` (`createApp`: stage registration order, routing, rate limiter),
- `src/middleware/error.middleware.ts` (Error Boundary; file not provided,
  modelled from the spec).

Machine integers are modelled as `Nat`/`Int`; the JavaScript `NaN` that
`parseInt` can produce is modelled as `none : Option Int`.
-/

namespace ExpressTs

/-! ## Configuration (`src/config/index.ts`) -/

/-- The environment fields consumed by the schema: `NODE_ENV` and `PORT`,
each possibly absent from the process environment. -/
structure Env where
  NODE_ENV : Option String
  PORT : Option String
deriving DecidableEq, Repr

/-- The values accepted by `z.enum(['development', 'production', 'test'])`. -/
def allowedEnvs : List String := ["development", "production", "test"]

/-- The validated environment record produced by `envSchema.parse`. -/
structure EnvVars where
  NODE_ENV : String
  PORT : String
deriving DecidableEq, Repr

/-- `envSchema.parse(process.env)`: `NODE_ENV` defaults to `"development"`
and must lie in `allowedEnvs`, otherwise zod throws (modelled as `.error`,
which aborts the process at module load); `PORT` is a plain string with
default `"3000"` (any present string passes `z.string()`). -/
def envSchemaParse (e : Env) : Except String EnvVars :=
  match e.NODE_ENV with
  | none => .ok ⟨"development", e.PORT.getD "3000"⟩
  | some s =>
    if allowedEnvs.contains s then .ok ⟨s, e.PORT.getD "3000"⟩
    else .error "invalid NODE_ENV"

/-- JavaScript digit check for base 10. -/
def isDigit10 (c : Char) : Bool := ('0' ≤ c && c ≤ '9')

/-- Value of a leading digit string. -/
def digitsToNat (l : List Char) : Nat :=
  l.foldl (fun a c => a * 10 + (c.toNat - 48)) 0

/-- JavaScript `parseInt(s, 10)`: skip leading whitespace, optional sign,
read the maximal run of leading digits; `NaN` (here `none`) when that run
is empty. -/
def jsParseInt (s : String) : Option Int :=
  let l := s.data.dropWhile (fun c => c == ' ' || c == '\t' || c == '\n' || c == '\r')
  match l with
  | '-' :: rest =>
    let d := rest.takeWhile isDigit10
    if d.isEmpty then none else some (-(digitsToNat d : Int))
  | '+' :: rest =>
    let d := rest.takeWhile isDigit10
    if d.isEmpty then none else some (digitsToNat d : Int)
  | _ =>
    let d := l.takeWhile isDigit10
    if d.isEmpty then none else some (digitsToNat d : Int)

/-- The exported `config` object. `port` is `Option Int` because
`parseInt` may produce `NaN`. -/
structure Config where
  env : String
  port : Option Int
  isProduction : Bool
  isDevelopment : Bool
  isTest : Bool
deriving DecidableEq, Repr

/-- Building `config` from the parsed environment, as in
`src/config/index.ts` lines 14-20. -/
def mkConfig (v : EnvVars) : Config :=
  { env := v.NODE_ENV
    port := jsParseInt v.PORT
    isProduction := v.NODE_ENV == "production"
    isDevelopment := v.NODE_ENV == "development"
    isTest := v.NODE_ENV == "test" }

/-- The whole startup path of `src/config/index.ts`: schema parse, then
`config` construction. `.error` means the process aborted before serving. -/
def resolveConfig (e : Env) : Except String Config :=
  (envSchemaParse e).map mkConfig

/-! ## Logging sink (`src/utils/logger.ts`) -/

/-- One combinator in a winston format pipeline. -/
inductive FormatStep
  | colorize
  | timestamp
  | printf
  | json
deriving DecidableEq, Repr

/-- `formats.development`: colorized, timestamped, single-line printf. -/
def formats_development : List FormatStep :=
  [.colorize, .timestamp, .printf]

/-- `formats.production`: timestamped structured JSON. -/
def formats_production : List FormatStep :=
  [.timestamp, .json]

/-- A transport destination. -/
inductive Dest
  | console
  | file (name : String)
deriving DecidableEq, Repr

/-- A winston transport: a destination plus an optional own level
threshold (inheriting the logger's level when absent). -/
structure Transport where
  dest : Dest
  level : Option String
deriving DecidableEq, Repr

/-- The winston logger object: minimum level, format, transports. -/
structure Logger where
  level : String
  format : List FormatStep
  transports : List Transport
deriving DecidableEq, Repr

/-- `winston.createLogger` as configured in `src/utils/logger.ts`:
level and format switch on `config.isProduction`; three transports. -/
def loggerOf (cfg : Config) : Logger :=
  { level := if cfg.isProduction then "info" else "debug"
    format := if cfg.isProduction then formats_production else formats_development
    transports :=
      [⟨.console, none⟩,
       ⟨.file "error.log", some "error"⟩,
       ⟨.file "combined.log", none⟩] }

/-- winston npm level priorities (error = 0 is most severe). -/
def levelPriority : String → Option Nat
  | "error" => some 0
  | "warn" => some 1
  | "info" => some 2
  | "http" => some 3
  | "verbose" => some 4
  | "debug" => some 5
  | "silly" => some 6
  | _ => none

/-- A record at level `a` passes a threshold `b` when its priority is at
most the threshold's priority (winston's comparison). -/
def levelLE (a b : String) : Bool :=
  match levelPriority a, levelPriority b with
  | some p, some q => decide (p ≤ q)
  | _, _ => false

/-- The destinations that receive a record written at level `lvl`:
the logger's own level gates first, then each transport filters by its
own level (defaulting to the logger's). -/
def writeDests (lg : Logger) (lvl : String) : List Dest :=
  if levelLE lvl lg.level then
    (lg.transports.filter (fun t => levelLE lvl (t.level.getD lg.level))).map Transport.dest
  else []

/-- The development-mode configuration (`NODE_ENV=development`). -/
def devConfig : Config := mkConfig ⟨"development", "3000"⟩

/-- The production-mode configuration (`NODE_ENV=production`). -/
def prodConfig : Config := mkConfig ⟨"production", "3000"⟩

/-! ## Rate limiter (`src/app.ts`, `rateLimit({windowMs, max})`) -/

/-- `windowMs: 15 * 60 * 1000` — 15 minutes in milliseconds. -/
def windowMs : Nat := 15 * 60 * 1000

/-- `max: 100` — ceiling per key and window. -/
def maxRequests : Nat := 100

/-- Per-key limiter entry: hit count and the start of the current window. -/
structure LimiterState where
  count : Nat
  windowStart : Nat
deriving DecidableEq, Repr

/-- One limiter hit for a single key at time `now`: a missing or expired
entry resets to a fresh window with count 1; otherwise the count is
incremented. The request passes iff the updated count is within `max`. -/
def limiterStep (st : Option LimiterState) (now : Nat) : Bool × LimiterState :=
  match st with
  | none => (decide (1 ≤ maxRequests), ⟨1, now⟩)
  | some s =>
    if s.windowStart + windowMs ≤ now then (decide (1 ≤ maxRequests), ⟨1, now⟩)
    else (decide (s.count + 1 ≤ maxRequests), ⟨s.count + 1, s.windowStart⟩)

/-- Run the limiter for one key over a list of request times, from a
given entry; returns the pass/reject verdicts and the final entry. -/
def limiterRunFrom (st : Option LimiterState) : List Nat → List Bool × Option LimiterState
  | [] => ([], st)
  | t :: ts =>
    let p := limiterStep st t
    let q := limiterRunFrom (some p.2) ts
    (p.1 :: q.1, q.2)

/-- Run the limiter for one key from no prior entry. -/
def limiterRun (ts : List Nat) : List Bool × Option LimiterState :=
  limiterRunFrom none ts

/-! ## Pipeline builder (`createApp` in `src/app.ts`) -/

/-- The registrable pipeline stages, one per `app.use`/`app.get` call in
`createApp`. -/
inductive Stage
  | helmetStage
  | corsStage
  | hppStage
  | limiterStage
  | jsonStage
  | urlencodedStage
  | compressionStage
  | morganStage
  | swaggerUiStage
  | swaggerJsonStage
  | apiRoutesStage
  | healthStage
  | rootStage
  | notFoundStage
  | errorHandlerStage
deriving DecidableEq, Repr

/-- `app.use(s)` / `app.get(path, s)`: register a stage after all stages
registered so far. -/
def use (app : List Stage) (s : Stage) : List Stage := app ++ [s]

/-- `createApp`: the registration sequence of `src/app.ts`, line by line,
starting from the empty `express()` application. -/
def createApp : List Stage :=
  use (use (use (use (use (use (use (use (use (use (use (use (use (use (use
    [] .helmetStage) .corsStage) .hppStage) .limiterStage) .jsonStage)
    .urlencodedStage) .compressionStage) .morganStage) .swaggerUiStage)
    .swaggerJsonStage) .apiRoutesStage) .healthStage) .rootStage)
    .notFoundStage) .errorHandlerStage

/-! ## Requests, responses and routing -/

/-- An inbound request: method, path, rate-limiter client key (the client
address) and arrival time in milliseconds. -/
structure Request where
  method : String
  path : String
  key : String
  time : Nat
deriving DecidableEq, Repr

/-- The response bodies the pipeline can produce. -/
inductive Body
  | statusOk
  | welcome
  | errorMsg (message : String)
  | swaggerHtml
  | swaggerJsonBody
  | text (s : String)
deriving DecidableEq, Repr

/-- A response: status code and body. -/
structure Response where
  status : Nat
  body : Body
deriving DecidableEq, Repr

/-- Express mount matching for `app.use(m, h)`: the mount handles `p`
when `p` equals `m` or continues it past a `/` boundary (so `/api` does
not capture `/api-docs.json`). -/
def mountMatch (m p : String) : Bool :=
  p == m || List.isPrefixOf (m ++ "/").data p.data

/-- The routing section of `createApp`, in registration order: the
swagger UI mount, the raw spec endpoint, the `/api` route-table mount
(`rt`, falling through when the table has no match), the liveness probe,
the welcome root, and the catch-all 404 responder. -/
def dispatch (rt : Request → Option Response) (req : Request) : Response :=
  if mountMatch "/api-docs" req.path then ⟨200, .swaggerHtml⟩
  else if req.method == "GET" && req.path == "/api-docs.json" then ⟨200, .swaggerJsonBody⟩
  else
    match (if mountMatch "/api" req.path then rt req else none) with
    | some r => r
    | none =>
      if req.method == "GET" && req.path == "/health" then ⟨200, .statusOk⟩
      else if req.method == "GET" && req.path == "/" then ⟨200, .welcome⟩
      else ⟨404, .errorMsg "Route not found"⟩

/-- Lookup in the limiter's per-key store. -/
def lookupKey : List (String × LimiterState) → String → Option LimiterState
  | [], _ => none
  | (k, v) :: rest, q => if k == q then some v else lookupKey rest q

/-- Update/insert in the limiter's per-key store. -/
def updateKey : List (String × LimiterState) → String → LimiterState → List (String × LimiterState)
  | [], q, v => [(q, v)]
  | (k, w) :: rest, q, v =>
    if k == q then (q, v) :: rest else (k, w) :: updateKey rest q v

/-- The mutable shared state of the pipeline: the rate limiter's per-key
hit store. -/
structure AppState where
  limiter : List (String × LimiterState)
deriving DecidableEq, Repr

/-- Fresh application state: no limiter entries. -/
def initialState : AppState := ⟨[]⟩

/-- The `express-rate-limit` rejection response. -/
def tooManyResponse : Response :=
  ⟨429, .text "Too many requests, please try again later."⟩

/-- One request through the pipeline: the limiter stage counts the hit
and either rejects or lets routing produce the response. -/
def appHandle (rt : Request → Option Response) (st : AppState) (req : Request) :
    Response × AppState :=
  let p := limiterStep (lookupKey st.limiter req.key) req.time
  let st' : AppState := ⟨updateKey st.limiter req.key p.2⟩
  if p.1 then (dispatch rt req, st') else (tooManyResponse, st')

/-- A sequence of requests through the pipeline, threading the state. -/
def appRun (rt : Request → Option Response) (st : AppState) :
    List Request → List Response × AppState
  | [] => ([], st)
  | r :: rs =>
    let p := appHandle rt st r
    let q := appRun rt p.2 rs
    (p.1 :: q.1, q.2)

/-- A GET request to the liveness probe from client `"client"` at time 0. -/
def healthReq : Request := ⟨"GET", "/health", "client", 0⟩

/-! ## Error Boundary (`src/middleware/error.middleware.ts`) -/

/-- A failure value intercepted by the Error Boundary: either it matches
the Application Error shape (message plus numeric status, the repository's
`CustomError`), or it is an unclassified failure with internal detail. -/
inductive ErrValue
  | appError (message : String) (statusCode : Nat)
  | unclassified (detail : String)
deriving DecidableEq, Repr

/-- The generic client-facing message for unclassified failures. -/
def genericMessage : String := "Internal Server Error"

/-- Modelled from the spec: `errorHandler` is defined in
`src/middleware/error.middleware.ts`, which is not among the provided
source files — only its registration `app.use(errorHandler)` in
`src/app.ts` is. Per the spec (§4.3): an Application Error is answered
with its carried status and `{status: "error", message}`; any other
failure is logged in full to the sink and answered with status 500 and
the same JSON shape carrying a generic message. -/
def errorHandler (sink : List String) (err : ErrValue) : Response × List String :=
  match err with
  | .appError m c => (⟨c, .errorMsg m⟩, sink)
  | .unclassified d => (⟨500, .errorMsg genericMessage⟩, sink ++ [d])

/-! ## Helper lemmas -/

/-- Within an open window starting at `t0`, a run of hits from a count of
`k` produces the verdict `k + i + 1 ≤ max` at position `i` and ends with
the count increased by the number of hits, the window start unchanged. -/
theorem limiterRunFrom_inWindow (t0 : Nat) (ts : List Nat) (k : Nat)
    (hin : ∀ t ∈ ts, t < t0 + windowMs) :
    (∀ i : Nat, ((limiterRunFrom (some ⟨k, t0⟩) ts).1)[i]?
        = if i < ts.length then some (decide (k + i + 1 ≤ maxRequests)) else none)
    ∧ (limiterRunFrom (some ⟨k, t0⟩) ts).2 = some ⟨k + ts.length, t0⟩ := by
  induction ts generalizing k with
  | nil => simp [limiterRunFrom]
  | cons t ts ih =>
    have ht : t < t0 + windowMs := hin t (List.mem_cons_self _ _)
    have hrest : ∀ u ∈ ts, u < t0 + windowMs := fun u hu => hin u (List.mem_cons_of_mem _ hu)
    have hstep : limiterStep (some ⟨k, t0⟩) t
        = (decide (k + 1 ≤ maxRequests), ⟨k + 1, t0⟩) := by
      simp [limiterStep, Nat.not_le.mpr ht]
    obtain ⟨ih1, ih2⟩ := ih (k + 1) hrest
    constructor
    · intro i
      cases i with
      | zero => simp [limiterRunFrom, hstep]
      | succ i =>
        have harith : k + 1 + i + 1 = k + (i + 1) + 1 := by omega
        simp only [limiterRunFrom, hstep, List.getElem?_cons_succ, List.length_cons]
        rw [ih1 i, harith]
        by_cases hi : i < ts.length
        · rw [if_pos hi, if_pos (by omega)]
        · rw [if_neg hi, if_neg (by omega)]
    · have harith : k + 1 + ts.length = k + (t :: ts).length := by
        simp [List.length_cons]; omega
      simp only [limiterRunFrom, hstep]
      rw [ih2, harith]

/-- A single pipeline step on the health probe from a store holding count
`k` for the client: with `k + 1` within the ceiling, the probe answers
`200 {status:"ok"}` and the count advances to `k + 1`. -/
theorem appHandle_health (rt : Request → Option Response) (k : Nat)
    (hk : k + 1 ≤ maxRequests) :
    appHandle rt ⟨[("client", ⟨k, 0⟩)]⟩ healthReq
      = (⟨200, Body.statusOk⟩, ⟨[("client", ⟨k + 1, 0⟩)]⟩) := by
  have hstep : limiterStep (some ⟨k, 0⟩) 0
      = (decide (k + 1 ≤ maxRequests), ⟨k + 1, 0⟩) := by
    simp [limiterStep, windowMs]
  simp [appHandle, healthReq, lookupKey, updateKey, hstep, decide_eq_true hk]
  rfl

/-- Pipeline runs of replicated health probes, from a store holding count
`k`: while the ceiling is not reached every response is `200 {status:"ok"}`
and the count grows by the number of probes. -/
theorem appRun_health_fromCount (rt : Request → Option Response) (n k : Nat)
    (h : k + n ≤ maxRequests) :
    appRun rt ⟨[("client", ⟨k, 0⟩)]⟩ (List.replicate n healthReq)
      = (List.replicate n ⟨200, Body.statusOk⟩, ⟨[("client", ⟨k + n, 0⟩)]⟩) := by
  induction n generalizing k with
  | zero => simp [appRun]
  | succ n ih =>
    have hstep := appHandle_health rt k (by omega)
    have harith : k + 1 + n = k + (n + 1) := by omega
    simp only [List.replicate_succ, appRun, hstep, ih (k + 1) (by omega), harith]

/-! ## Claim theorems -/

/-- C1: `createApp` registers the pipeline stages in exactly the fixed
§4.1 order — secure headers, cross-origin policy, parameter-pollution
guard, rate limiter, JSON and URL-encoded body decoding, compression,
access logger, the two documentation endpoints, the `/api` route-table
mount, liveness probe and welcome root, catch-all 404 — with the Error
Boundary registered last. -/
theorem pipelineOrder :
    createApp = [Stage.helmetStage, Stage.corsStage, Stage.hppStage, Stage.limiterStage,
      Stage.jsonStage, Stage.urlencodedStage, Stage.compressionStage, Stage.morganStage,
      Stage.swaggerUiStage, Stage.swaggerJsonStage, Stage.apiRoutesStage, Stage.healthStage,
      Stage.rootStage, Stage.notFoundStage, Stage.errorHandlerStage]
    ∧ createApp.getLast? = some Stage.errorHandlerStage :=
  ⟨rfl, rfl⟩

/-- C2: the Error Boundary answers an Application Error with its carried
status and `{status:"error", message}`, leaving the sink untouched; any
other failure is appended in full to the sink and answered with status
500 and the same JSON shape carrying the generic message — the body is a
constant independent of the internal detail, so no detail leaks. -/
theorem errorBoundary_contract (sink : List String) (m d : String) (c : Nat) :
    errorHandler sink (.appError m c) = (⟨c, .errorMsg m⟩, sink)
    ∧ errorHandler sink (.unclassified d) = (⟨500, .errorMsg genericMessage⟩, sink ++ [d])
    ∧ d ∈ (errorHandler sink (.unclassified d)).2
    ∧ (errorHandler sink (.unclassified d)).1.body = .errorMsg genericMessage := by
  refine ⟨rfl, rfl, ?_, rfl⟩
  simp [errorHandler]

/-- C3: for one client key, a run of requests all inside the 15-minute
window opened by the first request has its `i`-th verdict (0-based) equal
to `i < 100` — the first 100 pass, the 101st and all later ones are
rejected — and any request arriving once the window has elapsed passes
again, the counter having been reset. -/
theorem rateLimiter_window (t0 : Nat) (ts : List Nat)
    (hin : ∀ t ∈ ts, t < t0 + windowMs) :
    (∀ i : Nat, ((limiterRun (t0 :: ts)).1)[i]?
        = if i < ts.length + 1 then some (decide (i < maxRequests)) else none)
    ∧ (∀ tn : Nat, t0 + windowMs ≤ tn → (limiterStep (limiterRun (t0 :: ts)).2 tn).1 = true) := by
  have hfirst : limiterStep none t0 = (true, ⟨1, t0⟩) := by
    simp [limiterStep, maxRequests]
  obtain ⟨h1, h2⟩ := limiterRunFrom_inWindow t0 ts 1 hin
  constructor
  · intro i
    cases i with
    | zero => simp [limiterRun, limiterRunFrom, hfirst, maxRequests]
    | succ i =>
      simp only [limiterRun, limiterRunFrom, hfirst, List.getElem?_cons_succ, List.length_cons]
      rw [h1 i]
      by_cases hi : i < ts.length
      · rw [if_pos hi, if_pos (by omega)]
        congr 1
        exact decide_eq_decide.mpr (by omega)
      · rw [if_neg hi, if_neg (by omega)]
  · intro tn htn
    simp only [limiterRun, limiterRunFrom, hfirst]
    rw [h2]
    simp [limiterStep, htn, maxRequests]

/-- C4: startup configuration parsing succeeds exactly when `NODE_ENV` is
absent or one of the three allowed modes (so any malformed `NODE_ENV`
aborts the process before serving; no other consumed field can be
missing-and-required or malformed under the schema), and the defaults
apply when fields are absent: `NODE_ENV` resolves to `development` and
`PORT` to 3000. -/
theorem configParsing (m p : Option String) :
    ((resolveConfig ⟨m, p⟩).isOk = allowedEnvs.contains (m.getD "development"))
    ∧ ((resolveConfig ⟨none, p⟩).toOption.map Config.env = some "development")
    ∧ ((resolveConfig ⟨m, none⟩).toOption.map Config.port
        = if allowedEnvs.contains (m.getD "development") then some (some 3000) else none) := by
  refine ⟨?_, rfl, ?_⟩
  · cases m with
    | none => rfl
    | some s =>
      show (Except.map mkConfig (envSchemaParse ⟨some s, p⟩)).isOk = allowedEnvs.contains s
      cases hc : allowedEnvs.contains s with
      | true =>
        have he : envSchemaParse ⟨some s, p⟩ = Except.ok ⟨s, p.getD "3000"⟩ := by
          show (if allowedEnvs.contains s then Except.ok (⟨s, p.getD "3000"⟩ : EnvVars)
              else Except.error "invalid NODE_ENV") = Except.ok ⟨s, p.getD "3000"⟩
          rw [if_pos hc]
        rw [he]; rfl
      | false =>
        have hne : ¬(allowedEnvs.contains s = true) := by
          rw [hc]; exact Bool.false_ne_true
        have he : envSchemaParse ⟨some s, p⟩ = Except.error "invalid NODE_ENV" := by
          show (if allowedEnvs.contains s then Except.ok (⟨s, p.getD "3000"⟩ : EnvVars)
              else Except.error "invalid NODE_ENV") = Except.error "invalid NODE_ENV"
          rw [if_neg hne]
        rw [he]; rfl
  · cases m with
    | none => decide
    | some s =>
      show (Except.map mkConfig (envSchemaParse ⟨some s, none⟩)).toOption.map Config.port
          = if allowedEnvs.contains s then some (some 3000) else none
      cases hc : allowedEnvs.contains s with
      | true =>
        have he : envSchemaParse ⟨some s, none⟩ = Except.ok ⟨s, "3000"⟩ := by
          show (if allowedEnvs.contains s then Except.ok (⟨s, "3000"⟩ : EnvVars)
              else Except.error "invalid NODE_ENV") = Except.ok ⟨s, "3000"⟩
          rw [if_pos hc]
        rw [he, if_pos rfl]
        show some (jsParseInt "3000") = some (some 3000)
        decide
      | false =>
        have hne : ¬(allowedEnvs.contains s = true) := by
          rw [hc]; exact Bool.false_ne_true
        have he : envSchemaParse ⟨some s, none⟩ = Except.error "invalid NODE_ENV" := by
          show (if allowedEnvs.contains s then Except.ok (⟨s, "3000"⟩ : EnvVars)
              else Except.error "invalid NODE_ENV") = Except.error "invalid NODE_ENV"
          rw [if_neg hne]
        rw [he]; rfl

/-- C3 witness: 101 requests of one client at times 0..100, all inside one
window: the 100th (0-based 99) passes, the 101st (0-based 100) is
rejected, and a request arriving at the end of the window passes again. -/
theorem rateLimiter_window_witness :
    ((limiterRun (0 :: List.range' 1 100)).1)[99]? = some true
    ∧ ((limiterRun (0 :: List.range' 1 100)).1)[100]? = some false
    ∧ (limiterStep (limiterRun (0 :: List.range' 1 100)).2 windowMs).1 = true := by
  have h := rateLimiter_window 0 (List.range' 1 100) (by decide)
  exact ⟨(h.1 99).trans (by decide), (h.1 100).trans (by decide), h.2 windowMs (by decide)⟩

set_option maxRecDepth 10000 in
/-- C5 counterexample: 101 repetitions of the same GET `/health` through
the pipeline from a fresh state, all within one window: the first
repetition answers `200 {status:"ok"}` but the last receives the rate
limiter's rejection, and already the first repetition mutates the shared
limiter state. -/
theorem healthIdem_cex :
    ((appRun (fun _ => none) initialState (List.replicate 101 healthReq)).1.head?
      = some ⟨200, Body.statusOk⟩)
    ∧ ((appRun (fun _ => none) initialState (List.replicate 101 healthReq)).1.getLast?
      = some tooManyResponse)
    ∧ tooManyResponse ≠ ⟨200, Body.statusOk⟩
    ∧ (appHandle (fun _ => none) initialState healthReq).2 ≠ initialState := by
  refine ⟨?_, ?_, by decide, by decide⟩
  · decide
  · decide

/-- C5 amended: repeated GET `/health` does reach the same handler output
— every repetition answers the identical `200 {status:"ok"}` — but only
while the limiter ceiling (100 per window) is not exceeded, and each
repetition mutates the pipeline's shared limiter state, whose counter
records the number of repetitions. -/
theorem healthIdem_amended (rt : Request → Option Response) (n : Nat)
    (hn : n ≤ maxRequests) :
    ((appRun rt initialState (List.replicate n healthReq)).1
      = List.replicate n ⟨200, Body.statusOk⟩)
    ∧ ((appRun rt initialState (List.replicate n healthReq)).2
      = if n = 0 then initialState else ⟨[("client", ⟨n, 0⟩)]⟩) := by
  cases n with
  | zero => exact ⟨rfl, rfl⟩
  | succ n =>
    have hfirst : appHandle rt initialState healthReq
        = (⟨200, Body.statusOk⟩, ⟨[("client", ⟨1, 0⟩)]⟩) := by
      have hstep : limiterStep none 0 = (true, ⟨1, 0⟩) := by
        simp [limiterStep, maxRequests]
      simp [appHandle, initialState, healthReq, lookupKey, updateKey, hstep]
      rfl
    have hrest := appRun_health_fromCount rt n 1 (by omega)
    have harith : 1 + n = n + 1 := by omega
    rw [harith] at hrest
    constructor
    · simp only [List.replicate_succ, appRun, hfirst, hrest]
    · simp only [List.replicate_succ, appRun, hfirst, hrest]
      rw [if_neg (Nat.succ_ne_zero n)]

/-- C5 amended witness: two repetitions within the ceiling both answer
`200 {status:"ok"}` while the limiter counter advances to 2. -/
theorem healthIdem_amended_witness :
    ((appRun (fun _ => none) initialState (List.replicate 2 healthReq)).1
      = List.replicate 2 ⟨200, Body.statusOk⟩)
    ∧ ((appRun (fun _ => none) initialState (List.replicate 2 healthReq)).2
      = if 2 = 0 then initialState else ⟨[("client", ⟨2, 0⟩)]⟩) :=
  healthIdem_amended (fun _ => none) 2 (by decide)

/-- C6 counterexample: in development mode an `info` record reaches only
two destinations — the console and the all-records store — because the
errors-only transport filters it out; so not every record is duplicated
to at least three destinations. -/
theorem loggerSink_cex :
    (writeDests (loggerOf devConfig) "info").length = 2
    ∧ Dest.file "error.log" ∉ writeDests (loggerOf devConfig) "info"
    ∧ (loggerOf devConfig).transports.length = 3 := by
  refine ⟨by decide, by decide, rfl⟩

/-- C6 amended: the sink is configured with exactly the three
destinations console, errors-only `error.log` and all-records
`combined.log`; every record at or above the minimum level is written to
the console and the all-records store, and additionally to the
errors-only store exactly when its level is `error`; records below the
minimum level are written nowhere. -/
theorem loggerSink_amended (cfg : Config) (lvl : String) (p : Nat)
    (hp : levelPriority lvl = some p) :
    ((loggerOf cfg).transports.map Transport.dest
      = [Dest.console, Dest.file "error.log", Dest.file "combined.log"])
    ∧ (levelLE lvl (loggerOf cfg).level = true →
        writeDests (loggerOf cfg) lvl
          = if p = 0 then [Dest.console, Dest.file "error.log", Dest.file "combined.log"]
            else [Dest.console, Dest.file "combined.log"])
    ∧ (levelLE lvl (loggerOf cfg).level = false → writeDests (loggerOf cfg) lvl = []) := by
  have herr : levelLE lvl "error" = decide (p ≤ 0) := by
    unfold levelLE
    rw [hp]
    rfl
  refine ⟨rfl, ?_, ?_⟩
  · intro h
    have htr : (loggerOf cfg).transports
        = [⟨.console, none⟩, ⟨.file "error.log", some "error"⟩, ⟨.file "combined.log", none⟩] :=
      rfl
    rcases Nat.eq_zero_or_pos p with hz | hpos
    · subst hz
      have herr0 : levelLE lvl "error" = true := by
        rw [herr]; rfl
      rw [if_pos rfl]
      simp only [writeDests, h, if_true, htr]
      simp [List.filter, herr0, h]
    · have herr1 : levelLE lvl "error" = false := by
        rw [herr, decide_eq_false_iff_not]
        omega
      rw [if_neg (by omega)]
      simp only [writeDests, h, if_true, htr]
      simp [List.filter, herr1, h]
  · intro h
    simp [writeDests, h]

/-- C6 amended witness: in development mode an `info` record (priority 2)
is written exactly to the console and the all-records store. -/
theorem loggerSink_amended_witness :
    writeDests (loggerOf devConfig) "info" = [Dest.console, Dest.file "combined.log"] := by
  have h := loggerSink_amended devConfig "info" 2 rfl
  exact (h.2.1 (by decide)).trans (by decide)

/-- C7: the sink's output profile follows the execution mode — in
production the level floor is `info` and the format the structured JSON
profile (no colorizing), in development the floor is `debug` and the
format the colorized, timestamped single-line printf profile; a `debug`
record is dropped in production and written in development. -/
theorem loggerProfiles :
    ((loggerOf prodConfig).level = "info")
    ∧ ((loggerOf prodConfig).format = formats_production)
    ∧ FormatStep.json ∈ formats_production
    ∧ FormatStep.colorize ∉ formats_production
    ∧ ((loggerOf devConfig).level = "debug")
    ∧ ((loggerOf devConfig).format = formats_development)
    ∧ formats_development = [FormatStep.colorize, FormatStep.timestamp, FormatStep.printf]
    ∧ writeDests (loggerOf prodConfig) "debug" = []
    ∧ writeDests (loggerOf devConfig) "debug" ≠ [] := by
  refine ⟨rfl, rfl, by decide, by decide, rfl, rfl, rfl, by decide, by decide⟩

/-- C8: any request whose method/path pair escapes every registered
route — the swagger mounts, a route-table match under `/api`, the
liveness probe and the welcome root — falls through to the catch-all and
is answered `404 {status:"error", message:"Route not found"}`, for every
HTTP method. -/
theorem notFoundRoute (rt : Request → Option Response) (req : Request)
    (h1 : mountMatch "/api-docs" req.path = false)
    (h2 : (req.method == "GET" && req.path == "/api-docs.json") = false)
    (h3 : mountMatch "/api" req.path = true → rt req = none)
    (h4 : (req.method == "GET" && req.path == "/health") = false)
    (h5 : (req.method == "GET" && req.path == "/") = false) :
    dispatch rt req = ⟨404, Body.errorMsg "Route not found"⟩ := by
  have hrt : (if mountMatch "/api" req.path then rt req else none) = none := by
    cases hm : mountMatch "/api" req.path with
    | true => simpa using h3 hm
    | false => simp
  simp [dispatch, h1, h2, hrt, h4, h5]

/-- C8 witness: a POST to an unregistered path is answered with the 404
payload. -/
theorem notFoundRoute_witness :
    dispatch (fun _ => none) ⟨"POST", "/nope", "c", 0⟩ = ⟨404, Body.errorMsg "Route not found"⟩ :=
  notFoundRoute (fun _ => none) ⟨"POST", "/nope", "c", 0⟩ (by decide) (by decide)
    (fun _ => rfl) (by decide) (by decide)

/-- C9: every GET `/health` that reaches the routing section is answered
`200 {status:"ok"}`, whatever the route table holds. -/
theorem healthRoute (rt : Request → Option Response) (req : Request)
    (hm : req.method = "GET") (hp : req.path = "/health") :
    dispatch rt req = ⟨200, Body.statusOk⟩ := by
  obtain ⟨m, p, k, t⟩ := req
  have hm' : m = "GET" := hm
  have hp' : p = "/health" := hp
  subst hm'
  subst hp'
  rfl

/-- C9 witness: a concrete GET `/health` is answered `200 {status:"ok"}`. -/
theorem healthRoute_witness :
    dispatch (fun _ => none) ⟨"GET", "/health", "c", 5⟩ = ⟨200, Body.statusOk⟩ :=
  healthRoute (fun _ => none) ⟨"GET", "/health", "c", 5⟩ rfl rfl

/-- C10: under `NODE_ENV=test` the configuration parses to the non-
production mode, so the sink takes exactly the development profile —
minimum level `debug` and the colorized single-line format. -/
theorem testModeProfile :
    (resolveConfig ⟨some "test", none⟩ = Except.ok (mkConfig ⟨"test", "3000"⟩))
    ∧ (mkConfig ⟨"test", "3000"⟩).isProduction = false
    ∧ loggerOf (mkConfig ⟨"test", "3000"⟩) = loggerOf (mkConfig ⟨"development", "3000"⟩)
    ∧ (loggerOf (mkConfig ⟨"test", "3000"⟩)).level = "debug"
    ∧ (loggerOf (mkConfig ⟨"test", "3000"⟩)).format = formats_development :=
  ⟨rfl, rfl, rfl, rfl, rfl⟩

end ExpressTs
